import Mathlib

/-!
Shallow embedding of the flag-state logic of the bullet-train API
(`src/features/views.py`, routed in `src/api/urls.py`).

The repository excerpt contains the view layer only; the Django models
(`Environment`, `Identity`, `Feature`, `FeatureState`, `FeatureStateValue`)
and the serializers live in modules that are not part of the excerpt.  Their
record shapes, the store-level uniqueness constraint and the value-payload
validation are therefore modelled from the specification (marked
`Modelled from the spec:` below); everything else is translated directly from
`views.py`.

The Django ORM is embedded as explicit state passing over a `Store` record of
lists; `QuerySet.get` becomes `ormGet` (exactly one match, with the
`DoesNotExist` and `MultipleObjectsReturned` outcomes made explicit), and an
exception that no `except` clause of the view catches becomes a `crash`
outcome (Django surfaces it as a server error, not as an HTTP 4xx response).
-/

/-- Environment record. Modelled from the spec: belongs to one project and
has a unique API key (environments/models.py is not part of the excerpt). -/
structure Environment where
  id : Nat
  apiKey : String
  projectId : Nat
  deriving Repr, DecidableEq

/-- Feature record. Modelled from the spec: belongs to one project, name
unique case-insensitively within the project (features/models.py is not part
of the excerpt). -/
structure Feature where
  id : Nat
  name : String
  projectId : Nat
  deriving Repr, DecidableEq

/-- Identity record. Modelled from the spec: belongs to one environment,
identifier unique within the environment (environments/models.py is not part
of the excerpt). -/
structure Identity where
  id : Nat
  identifier : String
  environmentId : Nat
  deriving Repr, DecidableEq

/-- Typed value of a FeatureStateValue. Modelled from the spec: one of
none / string / integer / boolean. -/
inductive FSValue where
  | none
  | str (s : String)
  | int (n : Int)
  | bool (b : Bool)
  deriving Repr, DecidableEq

/-- FeatureStateValue record. Modelled from the spec: typed value payload
owned exclusively by one FeatureState. -/
structure FeatureStateValue where
  id : Nat
  value : FSValue
  deriving Repr, DecidableEq

/-- FeatureState record. Modelled from the spec: state of one feature within
one environment, optionally scoped to one identity (identityId = none is the
environment-level default), with an enabled flag and an associated
FeatureStateValue. -/
structure FeatureState where
  id : Nat
  environmentId : Nat
  featureId : Nat
  identityId : Option Nat
  enabled : Bool
  featureStateValueId : Nat
  deriving Repr, DecidableEq

/-- The persisted store the views read and write, one list per model.
`nextId` supplies fresh primary keys. -/
structure Store where
  environments : List Environment
  features : List Feature
  identities : List Identity
  featureStates : List FeatureState
  featureStateValues : List FeatureStateValue
  nextId : Nat
  deriving Repr, DecidableEq

/-- Outcome of `QuerySet.get`: exactly one row, no row (`DoesNotExist`), or
more than one row (`MultipleObjectsReturned`). -/
inductive GetResult (α : Type) where
  | found (x : α)
  | missing
  | multiple
  deriving Repr, DecidableEq

/-- Django `QuerySet.get(...)` over a list. -/
def ormGet {α : Type} (p : α → Bool) (xs : List α) : GetResult α :=
  match xs.filter p with
  | [] => .missing
  | [x] => .found x
  | _ => .multiple

/-- Row predicate for `Environment.objects.get(api_key=key)`. -/
def envByKey (key : String) (e : Environment) : Bool :=
  e.apiKey == key

/-- Row predicate for `Identity.objects.get(identifier=idf, environment=env)`. -/
def identityByIdf (idf : String) (envId : Nat) (i : Identity) : Bool :=
  i.identifier == idf && i.environmentId == envId

/-- ASCII lowercase of a string (Django `iexact` comparison). -/
def strLower (s : String) : String :=
  ⟨s.data.map Char.toLower⟩

/-- Row predicate for `Feature.objects.get(name__iexact=fname, project=...)`:
case-insensitive name match within the environment's project. -/
def featureByName (fname : String) (env : Environment) (f : Feature) : Bool :=
  strLower f.name == strLower fname && f.projectId == env.projectId

/-- Row predicate for `FeatureState.objects.get`/`filter` on the
(environment, feature, identity) tuple. -/
def fsBy (envId featId : Nat) (idId : Option Nat) (fs : FeatureState) : Bool :=
  fs.environmentId == envId && fs.featureId == featId && fs.identityId == idId

/-- Row predicate for the primary-key lookup of `get_object()` inside the
queryset filtered on (environment, identity). -/
def fsPk (pk envId : Nat) (idId : Option Nat) (fs : FeatureState) : Bool :=
  fs.id == pk && fs.environmentId == envId && fs.identityId == idId

def msgEnvKeyMissing : String := "Environment Key header not provided"
def msgNotFound : String := "Not found."
def msgFeatureNotFound : String := "Given feature not found"
def msgFeatureNotProvided : String := "Feature not provided"
def msgFeatureNotInProject : String := "Feature does not exist in project"
def msgCreateFailed : String := "Couldn\x27t create feature state."
def msgEnvDoesNotExist : String := "Environment matching query does not exist"
def msgIdentityDoesNotExist : String := "Identity matching query does not exist"
def msgFSDoesNotExist : String := "FeatureState matching query does not exist"
def msgMultipleReturned : String := "MultipleObjectsReturned"
def msgAttributeError : String := "AttributeError"

/-- The SDK lookup request (`SDKFeatureStates.get`): the
`X-Environment-Key` header, the optional `identifier` path segment and the
optional `feature` query parameter. -/
structure SdkRequest where
  envKeyHeader : Option String
  identifier : Option String
  featureQuery : Option String
  deriving Repr, DecidableEq

/-- Shape of the HTTP outcome of the SDK lookup.  Serializers are not part of
the excerpt; modelled from the spec, a response carries the selected records
themselves.  `crash` is an exception no handler in the view catches. -/
inductive SdkOutcome where
  | single (status : Nat) (fs : FeatureState)
  | multi (status : Nat) (fss : List FeatureState)
  | failure (status : Nat) (detail : String)
  | crash (msg : String)
  deriving Repr, DecidableEq

/-- Modelled from the spec: `Identity.get_all_feature_states`
(environments/models.py is not part of the excerpt) is a pure read returning
the pair (identity_flags, environment_flags): all identity-scoped states for
(environment, identity), and all environment-level states of the environment
with no identity-scoped override for the same feature. -/
def get_all_feature_states (s : Store) (env : Environment) (ident : Identity) :
    List FeatureState × List FeatureState :=
  let idFlags := s.featureStates.filter fun fs =>
    fs.environmentId == env.id && fs.identityId == some ident.id
  let envFlags := s.featureStates.filter fun fs =>
    fs.environmentId == env.id && fs.identityId == Option.none
      && !(idFlags.any fun i => i.featureId == fs.featureId)
  (idFlags, envFlags)

namespace SDKFeatureStates

/-- Body of `SDKFeatureStates.get` after the identity has been resolved
(views.py lines 197-224): single-feature lookup with identity-level override
and environment-level fallback, else the merged flag lists, environment
flags first. -/
def getForIdentity (s : Store) (env : Environment) (ident : Identity)
    (req : SdkRequest) : SdkOutcome × Store :=
  match req.featureQuery with
  | some fname =>
    match ormGet (featureByName fname env) s.features with
    | .multiple => (.crash msgMultipleReturned, s)
    | .missing => (.failure 404 msgFeatureNotFound, s)
    | .found feat =>
      match ormGet (fsBy env.id feat.id (some ident.id)) s.featureStates with
      | .multiple => (.crash msgMultipleReturned, s)
      | .found fs => (.single 200 fs, s)
      | .missing =>
        match ormGet (fsBy env.id feat.id Option.none) s.featureStates with
        | .found fs => (.single 200 fs, s)
        | .missing => (.crash msgFSDoesNotExist, s)
        | .multiple => (.crash msgMultipleReturned, s)
  | Option.none =>
    (.multi 200 ((get_all_feature_states s env ident).2
      ++ (get_all_feature_states s env ident).1), s)

/-- `SDKFeatureStates.get` (views.py lines 184-244): header validation,
environment lookup via `get_object_or_404`, lazy get-or-create of the
identity, then the flag lookup. -/
def get (s : Store) (req : SdkRequest) : SdkOutcome × Store :=
  match req.envKeyHeader with
  | Option.none => (.failure 400 msgEnvKeyMissing, s)
  | some key =>
    match ormGet (envByKey key) s.environments with
    | .multiple => (.crash msgMultipleReturned, s)
    | .missing => (.failure 404 msgNotFound, s)
    | .found env =>
      match req.identifier with
      | Option.none =>
        match req.featureQuery with
        | some fname =>
          match ormGet (featureByName fname env) s.features with
          | .multiple => (.crash msgMultipleReturned, s)
          | .missing => (.failure 404 msgFeatureNotFound, s)
          | .found feat =>
            (.multi 200 (s.featureStates.filter (fsBy env.id feat.id Option.none)), s)
        | Option.none =>
          (.multi 200 (s.featureStates.filter fun fs =>
            fs.environmentId == env.id && fs.identityId == Option.none), s)
      | some idf =>
        match ormGet (identityByIdf idf env.id) s.identities with
        | .multiple => (.crash msgMultipleReturned, s)
        | .found ident => getForIdentity s env ident req
        | .missing =>
          let ident : Identity :=
            { id := s.nextId, identifier := idf, environmentId := env.id }
          getForIdentity
            { s with identities := s.identities ++ [ident], nextId := s.nextId + 1 }
            env ident req

end SDKFeatureStates

/-- Raw `feature_state_value` request payload.  Modelled from the spec: the
payload is parsed by type, one of the supported value types
(none / string / integer / boolean); `unsupported` stands for any other JSON
shape (object, array, ...). -/
inductive RawValue where
  | str (s : String)
  | int (n : Int)
  | bool (b : Bool)
  | null
  | unsupported
  deriving Repr, DecidableEq

/-- Modelled from the spec: validation of the type-tagged value dict by
`FeatureStateValueSerializer` (features/serializers.py is not part of the
excerpt) — a payload of one of the supported value types is valid, anything
else is invalid. -/
def rawValueValid : RawValue → Bool
  | .unsupported => false
  | _ => true

/-- Modelled from the spec: `FeatureState.generate_feature_state_value_data`
(features/models.py is not part of the excerpt) — type-aware parsing of the
raw payload into the typed value fields. -/
def parseRawValue : RawValue → FSValue
  | .str s => .str s
  | .int n => .int n
  | .bool b => .bool b
  | .null => .none
  | .unsupported => .none

/-- Payload of an administrative create request, the fields the view and the
serializer read.  Modelled from the spec: serializer fields beyond the
feature reference, the enabled flag and the value payload are not part of
the excerpt. -/
structure CreateData where
  feature : Option Nat
  enabled : Option Bool
  featureStateValue : Option RawValue
  deriving Repr, DecidableEq

/-- Payload of an administrative update request (always treated as partial by
the view).  Modelled from the spec: the fields the update contract discusses
are the enabled flag and the value payload. -/
structure UpdateData where
  enabled : Option Bool
  featureStateValue : Option RawValue
  deriving Repr, DecidableEq

/-- Outcome of an administrative request: a response carrying the
created/updated record, an error response, or an exception no handler
catches (surfaced by Django as a server error). -/
inductive AdminResult where
  | ok (status : Nat) (fs : FeatureState)
  | err (status : Nat) (detail : String)
  | crash (msg : String)
  deriving Repr, DecidableEq

/-- Identity resolution from the URL kwargs: no identifier means the
environment-level scope (identity = none); an identifier is looked up with an
unguarded `Identity.objects.get` (views.py lines 69-75). -/
def resolveIdentityId (s : Store) (env : Environment) :
    Option String → GetResult (Option Nat)
  | Option.none => .found Option.none
  | some idf =>
    match ormGet (identityByIdf idf env.id) s.identities with
    | .found ident => .found (some ident.id)
    | .missing => .missing
    | .multiple => .multiple

namespace FeatureStateViewSet

/-- Outcome of `update_feature_state_value` (views.py lines 152-166): on a
valid payload the FeatureStateValue record is saved and returned; on an
invalid payload the helper returns a 400 `Response` object *as a value* to
its caller. -/
inductive ValueUpdateResult where
  | updated (fsv : FeatureStateValue) (s : Store)
  | badRequest
  deriving Repr, DecidableEq

/-- `FeatureStateViewSet.update_feature_state_value` (views.py lines
152-166): builds the type-tagged dict, validates it, and saves it onto the
given FeatureStateValue instance. -/
def update_feature_state_value (s : Store) (fsvId : Nat) (raw : RawValue) :
    ValueUpdateResult :=
  if rawValueValid raw then
    let fsv : FeatureStateValue := { id := fsvId, value := parseRawValue raw }
    .updated fsv
      { s with featureStateValues :=
          s.featureStateValues.map fun v => if v.id == fsvId then fsv else v }
  else
    .badRequest

/-- `FeatureStateViewSet.create` (views.py lines 77-112): resolves the
environment from the URL (unguarded `get`), rejects a payload without a
`feature`, rejects a feature outside the environment's project, resolves the
identity from the URL if present, validates and saves.  Serializer validity
is modelled from the spec: the store-level uniqueness constraint on
(environment, feature, identity) is the one way `FeatureStateSerializerBasic`
rejects this typed payload, and saving a FeatureState creates its associated
FeatureStateValue (default none).  The 400 `Response` built by
`update_feature_state_value` for an invalid value payload is discarded by
this method (source line 105: the helper's return value is ignored). -/
def create (s : Store) (envKey : String) (idf : Option String)
    (d : CreateData) : AdminResult × Store :=
  match ormGet (envByKey envKey) s.environments with
  | .missing => (.crash msgEnvDoesNotExist, s)
  | .multiple => (.crash msgMultipleReturned, s)
  | .found env =>
    match d.feature with
    | Option.none => (.err 400 msgFeatureNotProvided, s)
    | some featId =>
      if s.features.any (fun f => f.projectId == env.projectId && f.id == featId) then
        match resolveIdentityId s env idf with
        | .missing => (.crash msgIdentityDoesNotExist, s)
        | .multiple => (.crash msgMultipleReturned, s)
        | .found idId =>
          if s.featureStates.any (fsBy env.id featId idId) then
            (.err 400 msgCreateFailed, s)
          else
            let fsvId := s.nextId
            let fsId := s.nextId + 1
            let fsv : FeatureStateValue := { id := fsvId, value := .none }
            let fs : FeatureState :=
              { id := fsId, environmentId := env.id, featureId := featId,
                identityId := idId, enabled := d.enabled.getD false,
                featureStateValueId := fsvId }
            let s2 : Store :=
              { s with featureStates := s.featureStates ++ [fs],
                       featureStateValues := s.featureStateValues ++ [fsv],
                       nextId := s.nextId + 2 }
            match d.featureStateValue with
            | Option.none => (.ok 201 fs, s2)
            | some raw =>
              match update_feature_state_value s2 fsvId raw with
              | .updated _ s3 => (.ok 201 fs, s3)
              | .badRequest => (.ok 201 fs, s2)
      else
        (.err 400 msgFeatureNotInProject, s)

/-- Partial state update after the value payload has been handled (views.py
lines 133-144): the serializer is applied with `partial=True`, so absent
fields keep their stored values; the updated record is saved back. -/
def applyStateUpdate (s : Store) (fs : FeatureState) (d : UpdateData) :
    AdminResult × Store :=
  let fs2 : FeatureState := { fs with enabled := d.enabled.getD fs.enabled }
  (.ok 200 fs2,
    { s with featureStates :=
        s.featureStates.map fun x => if x.id == fs.id then fs2 else x })

/-- `FeatureStateViewSet.update` (views.py lines 114-150): fetches the record
through the queryset filtered on the URL's environment and identity
(unguarded `get`s on both, `get_object_or_404` on the primary key), handles a
`feature_state_value` payload first, then applies the always-partial state
update.  `partial_update` (line 146-150) delegates here unchanged.  When the
value payload is invalid, `update_feature_state_value` returns a 400
`Response` object and line 131 reads `.id` off it — an `AttributeError` no
handler catches. -/
def update (s : Store) (envKey : String) (idf : Option String) (pk : Nat)
    (d : UpdateData) : AdminResult × Store :=
  match ormGet (envByKey envKey) s.environments with
  | .missing => (.crash msgEnvDoesNotExist, s)
  | .multiple => (.crash msgMultipleReturned, s)
  | .found env =>
    match resolveIdentityId s env idf with
    | .missing => (.crash msgIdentityDoesNotExist, s)
    | .multiple => (.crash msgMultipleReturned, s)
    | .found idId =>
      match ormGet (fsPk pk env.id idId) s.featureStates with
      | .missing => (.err 404 msgNotFound, s)
      | .multiple => (.crash msgMultipleReturned, s)
      | .found fs =>
        match d.featureStateValue with
        | Option.none => applyStateUpdate s fs d
        | some raw =>
          match update_feature_state_value s fs.featureStateValueId raw with
          | .updated _ s2 => applyStateUpdate s2 fs d
          | .badRequest => (.crash msgAttributeError, s)

end FeatureStateViewSet
/-! Helper lemmas about the embedded ORM and the lookup endpoint. -/

theorem ormGet_eq_missing {α : Type} (p : α → Bool) (xs : List α) :
    ormGet p xs = .missing ↔ xs.filter p = [] := by
  unfold ormGet
  rcases h : xs.filter p with _ | ⟨x, _ | ⟨y, t⟩⟩ <;> simp

theorem eq_of_pairwise_ne {α β : Type} (f : α → β) :
    ∀ (l : List α), (l.Pairwise fun a b => f a ≠ f b) →
      ∀ x y, x ∈ l → y ∈ l → f x = f y → x = y := by
  intro l
  induction l with
  | nil => intro _ x y hx; cases hx
  | cons a t ih =>
    intro h x y hx hy hf
    rcases List.pairwise_cons.mp h with ⟨ha, ht⟩
    rcases List.mem_cons.mp hx with hxa | hxt
    · rcases List.mem_cons.mp hy with hya | hyt
      · rw [hxa, hya]
      · refine absurd ?_ (ha y hyt)
        rw [← hxa]; exact hf
    · rcases List.mem_cons.mp hy with hya | hyt
      · refine absurd ?_ (ha x hxt)
        rw [← hya]; exact hf.symm
      · exact ih ht x y hxt hyt hf

theorem map_eq_self_of_mem {α : Type} (g : α → α) (l : List α)
    (h : ∀ x ∈ l, g x = x) : l.map g = l := by
  induction l with
  | nil => rfl
  | cons a t ih =>
    simp only [List.map_cons, h a (List.mem_cons_self a t)]
    exact congrArg (a :: ·) (ih fun x hx => h x (List.mem_cons_of_mem _ hx))

theorem map_replace_self (fs : FeatureState) (l : List FeatureState)
    (h : l.Pairwise fun a b => a.id ≠ b.id) (hfs : fs ∈ l) :
    (l.map fun x => if x.id == fs.id then fs else x) = l := by
  apply map_eq_self_of_mem
  intro x hx
  by_cases hxe : x.id = fs.id
  · have hxfs : x = fs := eq_of_pairwise_ne FeatureState.id l h x fs hx hfs hxe
    simp [hxfs]
  · simp [beq_iff_eq, hxe]

namespace SDKFeatureStates

theorem getForIdentity_store (s : Store) (env : Environment) (ident : Identity)
    (req : SdkRequest) : (getForIdentity s env ident req).2 = s := by
  unfold getForIdentity
  repeat' split
  all_goals rfl

theorem get_cases (s : Store) (req : SdkRequest) :
    (get s req).2 = s ∨
      ∃ ni : Identity,
        req.identifier = some ni.identifier ∧
        s.identities.filter (identityByIdf ni.identifier ni.environmentId) = [] ∧
        (get s req).2 =
          { s with identities := s.identities ++ [ni], nextId := s.nextId + 1 } := by
  obtain ⟨hdr, idf, fq⟩ := req
  rcases hdr with _ | key
  · left; rfl
  · rcases hE : ormGet (envByKey key) s.environments with env | _ | _
    · rcases idf with _ | idfv
      · left
        simp only [get, hE]
        rcases fq with _ | fname
        · rfl
        · rcases hF : ormGet (featureByName fname env) s.features with feat | _ | _ <;>
            simp [hF]
      · rcases hI : ormGet (identityByIdf idfv env.id) s.identities with ident | _ | _
        · left
          simp only [get, hE, hI]
          exact getForIdentity_store ..
        · right
          refine ⟨⟨s.nextId, idfv, env.id⟩, rfl, (ormGet_eq_missing ..).mp hI, ?_⟩
          simp only [get, hE, hI]
          exact getForIdentity_store ..
        · left; simp [get, hE, hI]
    · left; simp [get, hE]
    · left; simp [get, hE]

end SDKFeatureStates

/-! Claim C1 -/

/-- Claim C1: for every environment, feature and identity, the SDK lookup for
(environment, feature, identity) returns the identity-level FeatureState when
one exists; when no identity-level override exists it returns the
environment-level FeatureState (identity = none); and a lookup with no
identity returns the environment-level FeatureState — the identity-level
override shadows the environment-level default. -/
theorem c1_identity_override_shadows (s : Store) (key fname : String)
    (env : Environment) (feat : Feature) (ident : Identity)
    (henv : s.environments.filter (envByKey key) = [env])
    (hident : s.identities.filter (identityByIdf ident.identifier env.id) = [ident])
    (hfeat : s.features.filter (featureByName fname env) = [feat]) :
    (∀ fsI, s.featureStates.filter (fsBy env.id feat.id (some ident.id)) = [fsI] →
       SDKFeatureStates.get s ⟨some key, some ident.identifier, some fname⟩
         = (.single 200 fsI, s))
    ∧ (∀ fsE, s.featureStates.filter (fsBy env.id feat.id (some ident.id)) = [] →
         s.featureStates.filter (fsBy env.id feat.id Option.none) = [fsE] →
         SDKFeatureStates.get s ⟨some key, some ident.identifier, some fname⟩
           = (.single 200 fsE, s))
    ∧ (∀ fsE, s.featureStates.filter (fsBy env.id feat.id Option.none) = [fsE] →
         SDKFeatureStates.get s ⟨some key, Option.none, some fname⟩
           = (.multi 200 [fsE], s)) := by
  refine ⟨?_, ?_, ?_⟩
  · intro fsI hI
    simp [SDKFeatureStates.get, SDKFeatureStates.getForIdentity, ormGet,
      henv, hident, hfeat, hI]
  · intro fsE hI hE
    simp [SDKFeatureStates.get, SDKFeatureStates.getForIdentity, ormGet,
      henv, hident, hfeat, hI, hE]
  · intro fsE hE
    simp [SDKFeatureStates.get, ormGet, henv, hfeat, hE]

def w1Env : Environment := { id := 1, apiKey := "abc123", projectId := 1 }
def w1Feat : Feature := { id := 1, name := "dark_mode", projectId := 1 }
def w1Ident : Identity := { id := 1, identifier := "user42", environmentId := 1 }
def w1FsE : FeatureState :=
  { id := 1, environmentId := 1, featureId := 1, identityId := Option.none,
    enabled := false, featureStateValueId := 1 }
def w1FsI : FeatureState :=
  { id := 2, environmentId := 1, featureId := 1, identityId := some 1,
    enabled := true, featureStateValueId := 2 }

/-- Store with both an environment-level default and an identity override. -/
def w1StoreA : Store :=
  { environments := [w1Env], features := [w1Feat], identities := [w1Ident],
    featureStates := [w1FsE, w1FsI],
    featureStateValues := [⟨1, .none⟩, ⟨2, .none⟩], nextId := 10 }

/-- Store with the environment-level default only. -/
def w1StoreB : Store :=
  { environments := [w1Env], features := [w1Feat], identities := [w1Ident],
    featureStates := [w1FsE], featureStateValues := [⟨1, .none⟩], nextId := 10 }

theorem c1_identity_override_shadows_witness :
    SDKFeatureStates.get w1StoreA ⟨some "abc123", some "user42", some "dark_mode"⟩
      = (.single 200 w1FsI, w1StoreA)
    ∧ SDKFeatureStates.get w1StoreB ⟨some "abc123", some "user42", some "dark_mode"⟩
      = (.single 200 w1FsE, w1StoreB)
    ∧ SDKFeatureStates.get w1StoreA ⟨some "abc123", Option.none, some "dark_mode"⟩
      = (.multi 200 [w1FsE], w1StoreA) :=
  ⟨(c1_identity_override_shadows w1StoreA "abc123" "dark_mode" w1Env w1Feat w1Ident
      (by decide) (by decide) (by decide)).1 w1FsI (by decide),
   (c1_identity_override_shadows w1StoreB "abc123" "dark_mode" w1Env w1Feat w1Ident
      (by decide) (by decide) (by decide)).2.1 w1FsE (by decide) (by decide),
   (c1_identity_override_shadows w1StoreA "abc123" "dark_mode" w1Env w1Feat w1Ident
      (by decide) (by decide) (by decide)).2.2 w1FsE (by decide)⟩

/-! Claim C6 -/

/-- Claim C6: an SDK lookup without the X-Environment-Key header yields 400
(a validation error, not an authentication failure); with a header matching
no environment it yields 404. -/
theorem c6_header_validation (s : Store) (ident fq : Option String) (key : String)
    (hkey : s.environments.filter (envByKey key) = []) :
    SDKFeatureStates.get s ⟨Option.none, ident, fq⟩
      = (.failure 400 msgEnvKeyMissing, s)
    ∧ SDKFeatureStates.get s ⟨some key, ident, fq⟩
      = (.failure 404 msgNotFound, s) :=
  ⟨rfl, by simp [SDKFeatureStates.get, ormGet, hkey]⟩

theorem c6_header_validation_witness :
    SDKFeatureStates.get w1StoreA ⟨Option.none, Option.none, Option.none⟩
      = (.failure 400 msgEnvKeyMissing, w1StoreA)
    ∧ SDKFeatureStates.get w1StoreA ⟨some "zzz", Option.none, Option.none⟩
      = (.failure 404 msgNotFound, w1StoreA) :=
  c6_header_validation w1StoreA Option.none Option.none "zzz" (by decide)

/-! Claim C7 -/

/-- Claim C7: the SDK lookup resolves the feature by case-insensitive name
match within the environment's project, and when no feature of that name
exists it responds 404 with detail "Given feature not found", whether or not
an identifier was supplied. -/
theorem c7_feature_name_resolution (s : Store) (key fname : String)
    (env : Environment)
    (henv : s.environments.filter (envByKey key) = [env]) :
    (s.features.filter (featureByName fname env) = [] →
       (SDKFeatureStates.get s ⟨some key, Option.none, some fname⟩).1
         = .failure 404 msgFeatureNotFound)
    ∧ (∀ idf, (s.identities.filter (identityByIdf idf env.id)).length ≤ 1 →
        s.features.filter (featureByName fname env) = [] →
        (SDKFeatureStates.get s ⟨some key, some idf, some fname⟩).1
          = .failure 404 msgFeatureNotFound)
    ∧ (∀ feat, s.features.filter (featureByName fname env) = [feat] →
        strLower feat.name = strLower fname ∧
        SDKFeatureStates.get s ⟨some key, Option.none, some fname⟩
          = (.multi 200 (s.featureStates.filter (fsBy env.id feat.id Option.none)), s)) := by
  refine ⟨?_, ?_, ?_⟩
  · intro habs
    simp [SDKFeatureStates.get, ormGet, henv, habs]
  · intro idf hlen habs
    rcases hI : s.identities.filter (identityByIdf idf env.id) with _ | ⟨i, _ | ⟨j, t⟩⟩
    · simp [SDKFeatureStates.get, SDKFeatureStates.getForIdentity, ormGet, henv, hI, habs]
    · simp [SDKFeatureStates.get, SDKFeatureStates.getForIdentity, ormGet, henv, hI, habs]
    · rw [hI] at hlen
      simp at hlen
  · intro feat hfeat
    constructor
    · have hm : feat ∈ s.features.filter (featureByName fname env) := by
        rw [hfeat]; exact List.mem_singleton.mpr rfl
      have hb : featureByName fname env feat = true := (List.mem_filter.mp hm).2
      simp only [featureByName, Bool.and_eq_true, beq_iff_eq] at hb
      exact hb.1
    · simp [SDKFeatureStates.get, ormGet, henv, hfeat]

theorem c7_feature_name_resolution_witness :
    (SDKFeatureStates.get w1StoreA ⟨some "abc123", Option.none, some "no_such"⟩).1
      = .failure 404 msgFeatureNotFound
    ∧ (SDKFeatureStates.get w1StoreA ⟨some "abc123", some "user42", some "no_such"⟩).1
      = .failure 404 msgFeatureNotFound
    ∧ strLower w1Feat.name = strLower "DARK_MODE"
    ∧ SDKFeatureStates.get w1StoreA ⟨some "abc123", Option.none, some "DARK_MODE"⟩
      = (.multi 200 [w1FsE], w1StoreA) := by
  have h1 := (c7_feature_name_resolution w1StoreA "abc123" "no_such" w1Env
    (by decide)).1 (by decide)
  have h2 := (c7_feature_name_resolution w1StoreA "abc123" "no_such" w1Env
    (by decide)).2.1 "user42" (by decide) (by decide)
  have h3 := (c7_feature_name_resolution w1StoreA "abc123" "DARK_MODE" w1Env
    (by decide)).2.2 w1Feat (by decide)
  exact ⟨h1, h2, h3.1, by rw [h3.2]; decide⟩

/-! Claim C8 -/

/-- Claim C8: an administrative create without a `feature` reference is
rejected with 400 "Feature not provided"; one whose feature does not belong
to the project owning the path's environment is rejected with 400
"Feature does not exist in project"; both checks run in that order before
any record is created (the store is returned unchanged). -/
theorem c8_create_feature_checks (s : Store) (k : String) (env : Environment)
    (idf : Option String)
    (henv : s.environments.filter (envByKey k) = [env]) :
    (∀ d : CreateData, d.feature = Option.none →
       FeatureStateViewSet.create s k idf d = (.err 400 msgFeatureNotProvided, s))
    ∧ (∀ d : CreateData, ∀ featId, d.feature = some featId →
        s.features.any (fun f => f.projectId == env.projectId && f.id == featId) = false →
        FeatureStateViewSet.create s k idf d = (.err 400 msgFeatureNotInProject, s)) := by
  constructor
  · intro d hd
    simp [FeatureStateViewSet.create, ormGet, henv, hd]
  · intro d featId hd hproj
    simp [FeatureStateViewSet.create, ormGet, henv, hd, hproj]

theorem c8_create_feature_checks_witness :
    FeatureStateViewSet.create w1StoreA "abc123" Option.none
      ⟨Option.none, some true, Option.none⟩
      = (.err 400 msgFeatureNotProvided, w1StoreA)
    ∧ FeatureStateViewSet.create w1StoreA "abc123" Option.none
      ⟨some 99, some true, Option.none⟩
      = (.err 400 msgFeatureNotInProject, w1StoreA) :=
  ⟨(c8_create_feature_checks w1StoreA "abc123" w1Env Option.none (by decide)).1
      ⟨Option.none, some true, Option.none⟩ rfl,
   (c8_create_feature_checks w1StoreA "abc123" w1Env Option.none (by decide)).2
      ⟨some 99, some true, Option.none⟩ 99 rfl (by decide)⟩

/-! Claim C3 -/

/-- Recognizer for a NotFound (404) response of the SDK lookup. -/
def isNotFound404 : SdkOutcome → Bool
  | .failure 404 _ => true
  | _ => false

/-- Store whose environment and feature exist but which holds no FeatureState
at all (neither identity-scoped nor environment-level). -/
def w3Store : Store :=
  { environments := [w1Env], features := [w1Feat], identities := [w1Ident],
    featureStates := [], featureStateValues := [], nextId := 10 }

/-- Claim C3 counterexample: with an identity and a feature name, when the
feature exists but neither an identity-scoped nor an environment-level
FeatureState exists, the lookup does not fail with NotFound (404) — the
unguarded fallback `FeatureState.objects.get(identity=None)` inside the
`except FeatureState.DoesNotExist` handler raises an uncaught
`FeatureState.DoesNotExist` instead. -/
theorem c3_counterexample :
    (SDKFeatureStates.get w3Store ⟨some "abc123", some "user42", some "dark_mode"⟩).1
      = .crash msgFSDoesNotExist
    ∧ isNotFound404 (SDKFeatureStates.get w3Store
        ⟨some "abc123", some "user42", some "dark_mode"⟩).1 = false := by
  decide

/-- Claim C3 (amended): for every SDK lookup with both an identity and a
feature name, when the feature exists in the environment's project but
neither an identity-scoped FeatureState nor an environment-level FeatureState
(identity = none) exists for it, the lookup raises an uncaught
FeatureState-not-found exception (a server error), not a NotFound (404)
response. -/
theorem c3_missing_states_crash (s : Store) (key fname : String)
    (env : Environment) (feat : Feature) (ident : Identity)
    (henv : s.environments.filter (envByKey key) = [env])
    (hident : s.identities.filter (identityByIdf ident.identifier env.id) = [ident])
    (hfeat : s.features.filter (featureByName fname env) = [feat])
    (hnoI : s.featureStates.filter (fsBy env.id feat.id (some ident.id)) = [])
    (hnoE : s.featureStates.filter (fsBy env.id feat.id Option.none) = []) :
    SDKFeatureStates.get s ⟨some key, some ident.identifier, some fname⟩
      = (.crash msgFSDoesNotExist, s) := by
  simp [SDKFeatureStates.get, SDKFeatureStates.getForIdentity, ormGet,
    henv, hident, hfeat, hnoI, hnoE]

theorem c3_missing_states_crash_witness :
    SDKFeatureStates.get w3Store ⟨some "abc123", some "user42", some "dark_mode"⟩
      = (.crash msgFSDoesNotExist, w3Store) :=
  c3_missing_states_crash w3Store "abc123" "dark_mode" w1Env w1Feat w1Ident
    (by decide) (by decide) (by decide) (by decide) (by decide)

/-! Claim C4 -/

/-- Store with an environment and a feature but no feature states, on which
an administrative create is run. -/
def w4Store : Store :=
  { environments := [w1Env], features := [w1Feat], identities := [],
    featureStates := [], featureStateValues := [], nextId := 1 }

/-- The FeatureState the create on `w4Store` persists. -/
def w4Fs : FeatureState :=
  { id := 2, environmentId := 1, featureId := 1, identityId := Option.none,
    enabled := true, featureStateValueId := 1 }

/-- Claim C4 evaluated at the failing input: a create whose
`feature_state_value` payload is invalid still returns 201 with the
FeatureState persisted, and the associated FeatureStateValue keeps its
default (the payload is dropped) — the 400 `Response` that
`update_feature_state_value` builds is discarded by `create`, so the handler
does partially commit, contrary to the claim. -/
theorem c4_invalid_value_payload_commits :
    (FeatureStateViewSet.create w4Store "abc123" Option.none
        ⟨some 1, some true, some .unsupported⟩).1 = .ok 201 w4Fs
    ∧ (FeatureStateViewSet.create w4Store "abc123" Option.none
        ⟨some 1, some true, some .unsupported⟩).2.featureStates = [w4Fs]
    ∧ (FeatureStateViewSet.create w4Store "abc123" Option.none
        ⟨some 1, some true, some .unsupported⟩).2.featureStateValues
      = [⟨1, FSValue.none⟩]
    ∧ rawValueValid RawValue.unsupported = false := by
  decide

/-! Claim C5 -/

/-- The FeatureState an administrative update is run against. -/
def w5Fs : FeatureState :=
  { id := 1, environmentId := 1, featureId := 1, identityId := Option.none,
    enabled := false, featureStateValueId := 1 }

/-- Store with an environment, a feature and one environment-level
FeatureState. -/
def w5Store : Store :=
  { environments := [w1Env], features := [w1Feat], identities := [],
    featureStates := [w5Fs], featureStateValues := [⟨1, .none⟩], nextId := 2 }

/-- Claim C5 evaluated at the failing input: an administrative update whose
`feature_state_value` payload is invalid does not fail with BadRequest (400)
— `update_feature_state_value` returns its 400 `Response` object as a value
and line 131 of views.py reads `.id` off it, an uncaught AttributeError
(server error). -/
theorem c5_invalid_value_payload_crashes :
    FeatureStateViewSet.update w5Store "abc123" Option.none 1
        ⟨Option.none, some .unsupported⟩ = (.crash msgAttributeError, w5Store)
    ∧ rawValueValid RawValue.unsupported = false := by
  decide

/-! Claim C9 -/

/-- Claim C9: the SDK lookup never creates or modifies FeatureState or
FeatureStateValue records (nor environments or features); a lookup without an
identifier mutates nothing; and the only possible mutation is the lazy
creation of one Identity for the supplied identifier when no matching
Identity exists. -/
theorem c9_lookup_frame (s : Store) (req : SdkRequest) :
    ((SDKFeatureStates.get s req).2.featureStates = s.featureStates)
    ∧ ((SDKFeatureStates.get s req).2.featureStateValues = s.featureStateValues)
    ∧ ((SDKFeatureStates.get s req).2.environments = s.environments)
    ∧ ((SDKFeatureStates.get s req).2.features = s.features)
    ∧ (req.identifier = Option.none → (SDKFeatureStates.get s req).2 = s)
    ∧ ((SDKFeatureStates.get s req).2 = s ∨
        ∃ ni : Identity,
          req.identifier = some ni.identifier ∧
          s.identities.filter (identityByIdf ni.identifier ni.environmentId) = [] ∧
          (SDKFeatureStates.get s req).2 =
            { s with identities := s.identities ++ [ni], nextId := s.nextId + 1 }) := by
  rcases SDKFeatureStates.get_cases s req with h | ⟨ni, hni, hfil, h⟩
  · rw [h]
    exact ⟨rfl, rfl, rfl, rfl, fun _ => rfl, Or.inl rfl⟩
  · rw [h]
    refine ⟨rfl, rfl, rfl, rfl, ?_, Or.inr ⟨ni, hni, hfil, rfl⟩⟩
    intro h0
    exact absurd (h0.symm.trans hni) (by simp)

theorem c9_lookup_frame_witness :
    (SDKFeatureStates.get w1StoreA ⟨some "abc123", Option.none, Option.none⟩).2
      = w1StoreA :=
  (c9_lookup_frame w1StoreA ⟨some "abc123", Option.none, Option.none⟩).2.2.2.2.1 rfl

/-! Claim C10 -/

/-- Claim C10: administrative updates are always partial (`partial_update`
delegates to `update`, which passes `partial=True` unconditionally — here the
one `FeatureStateViewSet.update` with absent fields keeping their stored
values); updating a FeatureState with only a `feature_state_value` in the
payload changes only the value: the returned record is the stored record
itself, the FeatureState list (hence its enabled flag and identity
association) and the identities are unchanged, and only the associated
FeatureStateValue is rewritten. -/
theorem c10_update_only_value (s : Store) (k : String) (idf : Option String)
    (env : Environment) (idId : Option Nat) (fs : FeatureState) (raw : RawValue)
    (henv : s.environments.filter (envByKey k) = [env])
    (hid : resolveIdentityId s env idf = .found idId)
    (hfs : s.featureStates.filter (fsPk fs.id env.id idId) = [fs])
    (hids : s.featureStates.Pairwise fun a b => a.id ≠ b.id)
    (hvalid : rawValueValid raw = true) :
    (FeatureStateViewSet.update s k idf fs.id ⟨Option.none, some raw⟩).1
      = .ok 200 fs
    ∧ (FeatureStateViewSet.update s k idf fs.id ⟨Option.none, some raw⟩).2.featureStates
      = s.featureStates
    ∧ (FeatureStateViewSet.update s k idf fs.id ⟨Option.none, some raw⟩).2.identities
      = s.identities
    ∧ (FeatureStateViewSet.update s k idf fs.id ⟨Option.none, some raw⟩).2.featureStateValues
      = s.featureStateValues.map fun v =>
          if v.id == fs.featureStateValueId
          then { id := fs.featureStateValueId, value := parseRawValue raw }
          else v := by
  have hmem : fs ∈ s.featureStates :=
    (List.mem_filter.mp (by rw [hfs]; exact List.mem_singleton.mpr rfl)).1
  have hrep := map_replace_self fs s.featureStates hids hmem
  have heta : (⟨fs.id, fs.environmentId, fs.featureId, fs.identityId,
      fs.enabled, fs.featureStateValueId⟩ : FeatureState) = fs := rfl
  simp [FeatureStateViewSet.update, FeatureStateViewSet.update_feature_state_value,
    FeatureStateViewSet.applyStateUpdate, ormGet, henv, hid, hfs, hvalid, hrep]
  simp only [heta]
  simpa [beq_iff_eq] using hrep

theorem c10_update_only_value_witness :
    (FeatureStateViewSet.update w5Store "abc123" Option.none 1
        ⟨Option.none, some (.int 5)⟩).1 = .ok 200 w5Fs
    ∧ (FeatureStateViewSet.update w5Store "abc123" Option.none 1
        ⟨Option.none, some (.int 5)⟩).2.featureStates = w5Store.featureStates
    ∧ (FeatureStateViewSet.update w5Store "abc123" Option.none 1
        ⟨Option.none, some (.int 5)⟩).2.identities = w5Store.identities
    ∧ (FeatureStateViewSet.update w5Store "abc123" Option.none 1
        ⟨Option.none, some (.int 5)⟩).2.featureStateValues
      = w5Store.featureStateValues.map fun v =>
          if v.id == w5Fs.featureStateValueId
          then { id := w5Fs.featureStateValueId, value := parseRawValue (.int 5) }
          else v :=
  c10_update_only_value w5Store "abc123" Option.none w1Env Option.none w5Fs
    (.int 5) (by decide) (by decide) (by decide) (by decide) (by decide)

/-! Claim C2 -/

/-- The (environment, feature, identity) tuple of a FeatureState. -/
def fsKey (fs : FeatureState) : Nat × Nat × Option Nat :=
  (fs.environmentId, fs.featureId, fs.identityId)

/-- At most one FeatureState per (environment, feature, identity) tuple,
identity = none included. -/
def uniqueFS (s : Store) : Prop :=
  s.featureStates.Pairwise fun a b => fsKey a ≠ fsKey b

/-- The empty store. -/
def storeEmpty : Store := ⟨[], [], [], [], [], 0⟩

/-- Reachable store states: from the empty store, records of the entity
models are inserted (their creation endpoints are outside the excerpt;
modelled from the spec as plain record insertion) and the three view
handlers of the excerpt run.  The automatic creation of environment-level
rows when a feature is added to a project happens in code outside the
excerpt ("not shown" per the spec) and is not modelled here. -/
inductive Reachable : Store → Prop where
  | empty : Reachable storeEmpty
  | addEnvironment (s : Store) (env : Environment) : Reachable s →
      Reachable { s with environments := s.environments ++ [env] }
  | addFeature (s : Store) (f : Feature) : Reachable s →
      Reachable { s with features := s.features ++ [f] }
  | addIdentity (s : Store) (i : Identity) : Reachable s →
      Reachable { s with identities := s.identities ++ [i] }
  | createFS (s : Store) (k : String) (idf : Option String) (d : CreateData) :
      Reachable s → Reachable (FeatureStateViewSet.create s k idf d).2
  | updateFS (s : Store) (k : String) (idf : Option String) (pk : Nat)
      (d : UpdateData) : Reachable s →
      Reachable (FeatureStateViewSet.update s k idf pk d).2
  | sdkLookup (s : Store) (req : SdkRequest) : Reachable s →
      Reachable (SDKFeatureStates.get s req).2

/-- Induction invariant: FeatureState tuples and primary keys are pairwise
distinct, and every FeatureState primary key is below the fresh-id
counter. -/
def storeInv (s : Store) : Prop :=
  (s.featureStates.Pairwise fun a b => fsKey a ≠ fsKey b ∧ a.id ≠ b.id)
  ∧ ∀ fs ∈ s.featureStates, fs.id < s.nextId

theorem ormGet_found_imp {α : Type} (p : α → Bool) (xs : List α) (x : α)
    (h : ormGet p xs = .found x) : x ∈ xs ∧ p x = true := by
  have hx : x ∈ xs.filter p := by
    unfold ormGet at h
    rcases hf : xs.filter p with _ | ⟨a, _ | ⟨b, t⟩⟩ <;> rw [hf] at h
    · exact GetResult.noConfusion h
    · have hax : a = x := by injection h
      rw [hax]
      exact List.mem_singleton.mpr rfl
    · exact GetResult.noConfusion h
  exact ⟨(List.mem_filter.mp hx).1, (List.mem_filter.mp hx).2⟩

theorem fsBy_eq_true_iff (envId featId : Nat) (idId : Option Nat)
    (x : FeatureState) :
    fsBy envId featId idId x = true ↔ fsKey x = (envId, featId, idId) := by
  simp [fsBy, fsKey, Prod.ext_iff, and_assoc]

theorem sdk_storeInv (s : Store) (req : SdkRequest) (h : storeInv s) :
    storeInv (SDKFeatureStates.get s req).2 := by
  rcases SDKFeatureStates.get_cases s req with he | ⟨ni, _, _, he⟩ <;> rw [he]
  · exact h
  · exact ⟨h.1, fun fs hfs => Nat.lt_succ_of_lt (h.2 fs hfs)⟩

theorem pairwise_replace (l : List FeatureState) (fs fs2 : FeatureState)
    (hP : l.Pairwise fun a b => fsKey a ≠ fsKey b ∧ a.id ≠ b.id)
    (hfs : fs ∈ l) (hid : fs2.id = fs.id) (hkey : fsKey fs2 = fsKey fs) :
    (l.map fun x => if x.id == fs.id then fs2 else x).Pairwise
      fun a b => fsKey a ≠ fsKey b ∧ a.id ≠ b.id := by
  have hg : ∀ x ∈ l, fsKey (if x.id == fs.id then fs2 else x) = fsKey x
      ∧ (if x.id == fs.id then fs2 else x).id = x.id := by
    intro x hx
    by_cases hxe : x.id = fs.id
    · have hxfs : x = fs := eq_of_pairwise_ne FeatureState.id l
        (hP.imp fun hab => hab.2) x fs hx hfs hxe
      simp [beq_iff_eq, hxe, hxfs, hid, hkey]
    · simp [beq_iff_eq, hxe]
  rw [List.pairwise_map]
  refine hP.imp_of_mem ?_
  intro a b ha hb hab
  constructor
  · rw [(hg a ha).1, (hg b hb).1]
    exact hab.1
  · rw [(hg a ha).2, (hg b hb).2]
    exact hab.2

theorem applyStateUpdate_storeInv (s : Store) (fs : FeatureState)
    (d : UpdateData) (h : storeInv s) (hmem : fs ∈ s.featureStates) :
    storeInv (FeatureStateViewSet.applyStateUpdate s fs d).2 := by
  unfold FeatureStateViewSet.applyStateUpdate
  constructor
  · exact pairwise_replace s.featureStates fs _ h.1 hmem rfl rfl
  · intro x hx
    rcases List.mem_map.mp hx with ⟨y, hy, hxy⟩
    rw [← hxy]
    by_cases hye : y.id = fs.id
    · simp only [beq_iff_eq, hye, if_pos]
      exact h.2 fs hmem
    · simp only [beq_iff_eq, hye, if_neg, not_false_iff]
      exact h.2 y hy

theorem update_storeInv (s : Store) (k : String) (idf : Option String)
    (pk : Nat) (d : UpdateData) (h : storeInv s) :
    storeInv (FeatureStateViewSet.update s k idf pk d).2 := by
  unfold FeatureStateViewSet.update
  rcases hE : ormGet (envByKey k) s.environments with env | _ | _ <;>
    simp only [hE]
  · rcases hr : resolveIdentityId s env idf with idId | _ | _ <;> simp only [hr]
    · rcases hfs : ormGet (fsPk pk env.id idId) s.featureStates with fs | _ | _ <;>
        simp only [hfs]
      · have hmem : fs ∈ s.featureStates := (ormGet_found_imp _ _ _ hfs).1
        rcases hv : d.featureStateValue with _ | raw <;> simp only [hv]
        · exact applyStateUpdate_storeInv s fs d h hmem
        · rcases hval : rawValueValid raw with _ | _ <;>
            simp only [FeatureStateViewSet.update_feature_state_value, hval,
              Bool.false_eq_true, if_false, if_true]
          · exact h
          · exact applyStateUpdate_storeInv _ fs d ⟨h.1, h.2⟩ hmem
      · exact h
      · exact h
    · exact h
    · exact h
  · exact h
  · exact h

theorem storeInv_save (s : Store) (envId featId : Nat) (idId : Option Nat)
    (en : Bool) (h : storeInv s)
    (hdup : s.featureStates.any (fsBy envId featId idId) = false) :
    storeInv { s with
      featureStates := s.featureStates ++
        [⟨s.nextId + 1, envId, featId, idId, en, s.nextId⟩],
      featureStateValues := s.featureStateValues ++ [⟨s.nextId, .none⟩],
      nextId := s.nextId + 2 } := by
  constructor
  · rw [List.pairwise_append]
    refine ⟨h.1, List.pairwise_singleton .., ?_⟩
    intro a ha b hb
    obtain rfl := List.mem_singleton.mp hb
    constructor
    · intro hkeq
      have hatrue : fsBy envId featId idId a = true :=
        (fsBy_eq_true_iff envId featId idId a).mpr hkeq
      have hany : s.featureStates.any (fsBy envId featId idId) = true :=
        List.any_eq_true.mpr ⟨a, ha, hatrue⟩
      rw [hany] at hdup
      exact Bool.noConfusion hdup
    · have := h.2 a ha
      show a.id ≠ s.nextId + 1
      omega
  · intro x hx
    rcases List.mem_append.mp hx with hx | hx
    · have := h.2 x hx
      show x.id < s.nextId + 2
      omega
    · obtain rfl := List.mem_singleton.mp hx
      show s.nextId + 1 < s.nextId + 2
      omega

theorem create_storeInv (s : Store) (k : String) (idf : Option String)
    (d : CreateData) (h : storeInv s) :
    storeInv (FeatureStateViewSet.create s k idf d).2 := by
  unfold FeatureStateViewSet.create
  rcases hE : ormGet (envByKey k) s.environments with env | _ | _ <;>
    simp only [hE]
  · rcases hfd : d.feature with _ | featId <;> simp only [hfd]
    · exact h
    · rcases hproj : s.features.any
          (fun f => f.projectId == env.projectId && f.id == featId) with _ | _ <;>
        simp only [hproj, Bool.false_eq_true, if_false, if_true]
      · exact h
      · rcases hr : resolveIdentityId s env idf with idId | _ | _ <;> simp only [hr]
        · rcases hdup : s.featureStates.any (fsBy env.id featId idId) with _ | _ <;>
            simp only [hdup, Bool.false_eq_true, if_false, if_true]
          · rcases hv : d.featureStateValue with _ | raw <;> simp only [hv]
            · exact storeInv_save s env.id featId idId (d.enabled.getD false) h hdup
            · rcases hval : rawValueValid raw with _ | _ <;>
                simp only [FeatureStateViewSet.update_feature_state_value, hval,
                  Bool.false_eq_true, if_false, if_true]
              · exact storeInv_save s env.id featId idId (d.enabled.getD false) h hdup
              · exact storeInv_save s env.id featId idId (d.enabled.getD false) h hdup
          · exact h
        · exact h
        · exact h
  · exact h
  · exact h

theorem reachable_storeInv (s : Store) (h : Reachable s) : storeInv s := by
  induction h with
  | empty => exact ⟨List.Pairwise.nil, fun fs hfs => absurd hfs (List.not_mem_nil fs)⟩
  | addEnvironment s env _ ih => exact ih
  | addFeature s f _ ih => exact ih
  | addIdentity s i _ ih => exact ih
  | createFS s k idf d _ ih => exact create_storeInv s k idf d ih
  | updateFS s k idf pk d _ ih => exact update_storeInv s k idf pk d ih
  | sdkLookup s req _ ih => exact sdk_storeInv s req ih

theorem create_dup (s' : Store) (k : String) (idf : Option String)
    (d : CreateData) (env : Environment) (featId : Nat) (idId : Option Nat)
    (hE : ormGet (envByKey k) s'.environments = .found env)
    (hf : d.feature = some featId)
    (hany : s'.features.any
      (fun f => f.projectId == env.projectId && f.id == featId) = true)
    (hr : resolveIdentityId s' env idf = .found idId)
    (hdup : s'.featureStates.any (fsBy env.id featId idId) = true) :
    FeatureStateViewSet.create s' k idf d = (.err 400 msgCreateFailed, s') := by
  simp [FeatureStateViewSet.create, hE, hf, hany, hr, hdup]

theorem create_succeeds_then_fails (s : Store) (k : String) (idf : Option String)
    (d : CreateData) (fs : FeatureState) (s' : Store)
    (h : FeatureStateViewSet.create s k idf d = (.ok 201 fs, s')) :
    FeatureStateViewSet.create s' k idf d = (.err 400 msgCreateFailed, s') := by
  unfold FeatureStateViewSet.create at h
  split at h
  · simp at h
  · simp at h
  · rename_i env hE
    split at h
    · simp at h
    · rename_i featId hfd
      split at h
      · rename_i hproj
        split at h
        · simp at h
        · simp at h
        · rename_i idId hr
          split at h
          · simp at h
          · rename_i hdup
            split at h
            · rename_i hv
              injection h with h1 h2
              subst h2
              exact create_dup _ k idf d env featId idId hE hfd hproj hr
                (by simp [List.any_append, fsBy])
            · rename_i raw hv
              simp only [] at h
              split at h
              · rename_i fsv3 s3 hupd
                unfold FeatureStateViewSet.update_feature_state_value at hupd
                split at hupd
                · injection hupd with hu1 hu2
                  subst hu2
                  injection h with h1 h2
                  subst h2
                  exact create_dup _ k idf d env featId idId hE hfd hproj hr
                    (by simp [List.any_append, fsBy])
                · exact FeatureStateViewSet.ValueUpdateResult.noConfusion hupd
              · rename_i hbad
                injection h with h1 h2
                subst h2
                exact create_dup _ k idf d env featId idId hE hfd hproj hr
                  (by simp [List.any_append, fsBy])
      · simp at h

/-- Claim C2: for every reachable store state, at most one FeatureState
exists per (environment, feature, identity) tuple (identity = none
included); and the create handler never succeeds twice for the same tuple —
re-running a create that just succeeded yields 400 and leaves the store
unchanged. -/
theorem c2_unique_per_tuple :
    (∀ s : Store, Reachable s → uniqueFS s)
    ∧ (∀ (s : Store) (k : String) (idf : Option String) (d : CreateData)
        (fs : FeatureState) (s' : Store),
        FeatureStateViewSet.create s k idf d = (.ok 201 fs, s') →
        FeatureStateViewSet.create s' k idf d = (.err 400 msgCreateFailed, s')) := by
  constructor
  · intro s h
    exact ((reachable_storeInv s h).1).imp fun hab => hab.1
  · intro s k idf d fs s' h
    exact create_succeeds_then_fails s k idf d fs s' h

def w2Fs : FeatureState :=
  { id := 2, environmentId := 1, featureId := 1, identityId := Option.none,
    enabled := true, featureStateValueId := 1 }

/-- The store `w4Store` after one successful administrative create. -/
def w2StoreAfter : Store :=
  { environments := [w1Env], features := [w1Feat], identities := [],
    featureStates := [w2Fs], featureStateValues := [⟨1, .none⟩], nextId := 3 }

theorem c2_unique_per_tuple_witness :
    uniqueFS storeEmpty
    ∧ FeatureStateViewSet.create w2StoreAfter "abc123" Option.none
        ⟨some 1, some true, Option.none⟩
      = (.err 400 msgCreateFailed, w2StoreAfter) :=
  ⟨c2_unique_per_tuple.1 storeEmpty Reachable.empty,
   c2_unique_per_tuple.2 w4Store "abc123" Option.none
     ⟨some 1, some true, Option.none⟩ w2Fs w2StoreAfter (by decide)⟩
